import Mathlib

/-!
Verification of the A2A sample agents repository: a shallow embedding of
src/samples/python/agents/generic_agent/task_manager.py and
src/samples/python/agents/sql_agent/agent.py, together with the parts of the
common package (task store, event queue, push-notification auth) that the
task manager calls but that are not part of the provided sources; those are
modelled from the specification and marked as such.
-/

namespace A2A

/-- Modelled from the spec: the task states of common.types.TaskState used by the
task manager (spec section 3). -/
inductive TaskState
  | submitted
  | working
  | input_required
  | completed
  | failed
  deriving DecidableEq

/-- Modelled from the spec: a message part; the sole supported modality is a text
part (spec section 6); the other constructor stands for any non-text part. -/
inductive Part
  | text (text : String)
  | other
  deriving DecidableEq

/-- Modelled from the spec: common.types.Message, a role with a list of parts. -/
structure Message where
  role : String
  parts : List Part
  deriving DecidableEq

/-- Modelled from the spec: common.types.TaskStatus, a state with an optional message. -/
structure TaskStatus where
  state : TaskState
  message : Option Message := none
  deriving DecidableEq

/-- Modelled from the spec: common.types.Artifact; index defaults to 0 and append
defaults to unset, as in the synchronous path of the task manager. -/
structure Artifact where
  parts : List Part
  index : Nat := 0
  append : Option Bool := none
  deriving DecidableEq

/-- Modelled from the spec: common.types.Task as the task manager uses it (spec
section 3): id, session, current status, status history, produced artifacts. -/
structure Task where
  id : String
  sessionId : String
  status : TaskStatus
  history : List TaskStatus
  artifacts : List Artifact
  deriving DecidableEq

/-- Modelled from the spec: common.types.PushNotificationConfig, the push endpoint url. -/
structure PushNotificationConfig where
  url : String
  deriving DecidableEq

/-- Modelled from the spec: common.types.TaskSendParams as read by the task manager. -/
structure TaskSendParams where
  id : String
  sessionId : String
  message : Message
  acceptedOutputModes : List String
  historyLength : Option Nat := none
  pushNotification : Option PushNotificationConfig := none
  deriving DecidableEq

/-- Modelled from the spec: a send or subscribe request: a request id plus params. -/
structure SendTaskRequest where
  id : String
  params : TaskSendParams
  deriving DecidableEq

/-- Modelled from the spec: the JSON-RPC error variants the task manager produces. -/
inductive JSONRPCError
  | invalidParams (message : String)
  | internalError (message : String)
  deriving DecidableEq

/-- Modelled from the spec: common.types.SendTaskResponse, carrying either a task
result or an error. -/
structure SendTaskResponse where
  id : String
  result : Option Task := none
  error : Option JSONRPCError := none
  deriving DecidableEq

/-- Python exceptions that the embedded task-manager code can raise or catch. -/
inductive Exn
  | valueError (message : String)
  | indexError
  | unboundLocalError (name : String)
  | notFoundError (message : String)
  | agentError (message : String)
  deriving DecidableEq

/-- The message text carried by an exception, as Python str of the exception. -/
def exnMessage : Exn → String
  | .valueError m => m
  | .indexError => "list index out of range"
  | .unboundLocalError n => "local variable " ++ n ++ " referenced before assignment"
  | .notFoundError m => m
  | .agentError m => m

/-- True when an Except value is a normal return rather than a raised exception. -/
def isOkE {ε α : Type} : Except ε α → Bool
  | .ok _ => true
  | .error _ => false

/-- The in-memory task store: the canonical list of tasks, keyed by unique id. -/
abbrev TaskStore := List Task

/-- Lookup of a task by id in the store. -/
def findTask (store : TaskStore) (taskId : String) : Option Task :=
  store.find? (fun t => t.id == taskId)

/-- The fresh task created on first submission: status SUBMITTED, empty history,
no artifacts (spec section 4.1). -/
def newTask (p : TaskSendParams) : Task :=
  { id := p.id, sessionId := p.sessionId,
    status := { state := .submitted, message := none },
    history := [], artifacts := [] }

/-- Modelled from the spec: common.server.task_manager.InMemoryTaskManager.upsert_task
is not under src. Spec 4.1: creates a task if absent (status SUBMITTED, empty
history) or returns the existing one. -/
def upsert_task (store : TaskStore) (p : TaskSendParams) : TaskStore :=
  if (findTask store p.id).isSome then store else store ++ [newTask p]

/-- The result of one store update: status replaced, previous status appended to
history, artifacts appended when given (spec section 4.1). -/
def applyUpdate (t : Task) (status : TaskStatus) (artifacts : Option (List Artifact)) :
    Task :=
  { t with status := status,
           history := t.history ++ [t.status],
           artifacts := t.artifacts ++ artifacts.getD [] }

/-- Replacement of the (unique) task with the given id in the store. -/
def replaceTask : TaskStore → String → Task → TaskStore
  | [], _, _ => []
  | t :: ts, taskId, t' =>
    if t.id == taskId then t' :: ts else t :: replaceTask ts taskId t'

/-- Modelled from the spec: InMemoryTaskManager.update_store is not under src.
Spec 4.1: atomically replaces the status, appends the artifacts if given, appends
the previous status to the history; fails with a not-found error when the id is
unknown. -/
def update_store (store : TaskStore) (taskId : String) (status : TaskStatus)
    (artifacts : Option (List Artifact)) : Except Exn (Task × TaskStore) :=
  match findTask store taskId with
  | none => .error (.notFoundError ("Task " ++ taskId ++ " not found"))
  | some t => .ok (applyUpdate t status artifacts,
                   replaceTask store taskId (applyUpdate t status artifacts))

/-- Modelled from the spec: InMemoryTaskManager.append_task_history is not under src.
Spec 4.1: returns a copy whose history is truncated to the last maxLen entries; 0 or
unset gives an empty history in the returned copy. -/
def append_task_history (t : Task) (historyLength : Option Nat) : Task :=
  match historyLength with
  | none => { t with history := [] }
  | some 0 => { t with history := [] }
  | some n => { t with history := t.history.drop (t.history.length - n) }

/-- The per-task push-notification configuration registry of the base task manager. -/
abbrev PushStore := List (String × PushNotificationConfig)

/-- Modelled from the spec: InMemoryTaskManager.get_push_notification_info is not
under src; it returns the config registered for the task id, if any. -/
def get_push_notification_info (ps : PushStore) (taskId : String) :
    Option PushNotificationConfig :=
  (ps.find? (fun e => e.1 == taskId)).map (fun e => e.2)

/-- Modelled from the spec: InMemoryTaskManager.has_push_notification_info is not
under src; true when a config is registered for the task id. -/
def has_push_notification_info (ps : PushStore) (taskId : String) : Bool :=
  (get_push_notification_info ps taskId).isSome

/-- The outcome of one webhook delivery attempt by the external transport. -/
inductive DeliveryOutcome
  | success
  | failure (message : String)
  deriving DecidableEq

/-- A delivery attempt made to a push endpoint: the url and the task state sent. -/
structure SentNotification where
  url : String
  taskId : String
  state : TaskState
  deriving DecidableEq

/-- Modelled from the spec: PushNotificationSenderAuth.send_push_notification
(common.utils.push_notification_auth) is not under src. Spec 4.3: delivery is
fire-and-forget; failures are logged, never raised, never retried. The model
returns the delivery attempt made and the log line a failure produces; it never
raises. -/
def send_push_notification (outcome : DeliveryOutcome) (url : String) (t : Task) :
    SentNotification × List String :=
  ({ url := url, taskId := t.id, state := t.status.state },
   match outcome with
   | .success => []
   | .failure m => ["Error sending push notification: " ++ m])

/-- TaskManager.send_task_notification (task_manager.py lines 188-198): returns
without sending when no push config is registered for the task; otherwise delivers
the task state to the configured url through the collaborator. Returns the
deliveries made and the log lines produced. -/
def send_task_notification (outcome : DeliveryOutcome) (ps : PushStore) (t : Task) :
    List SentNotification × List String :=
  if !has_push_notification_info ps t.id then ([], [])
  else
    match get_push_notification_info ps t.id with
    | none => ([], [])
    | some info =>
      let r := send_push_notification outcome info.url t
      ([r.1], r.2)

/-- TaskManager.set_push_notification_info (task_manager.py lines 200-207): verifies
the url through the collaborator; on failure returns false without persisting; on
success persists the config and returns true. -/
def set_push_notification_info (verify : String → Bool) (ps : PushStore)
    (taskId : String) (config : PushNotificationConfig) : Bool × PushStore :=
  if !verify config.url then (false, ps)
  else (true, (ps.filter (fun e => e.1 != taskId)) ++ [(taskId, config)])

/-- Modelled from the spec: common.server.utils.are_modalities_compatible is not
under src. Spec sections 4.4 and 8: a request whose acceptedOutputModes excludes
all of the agent's SUPPORTED_CONTENT_TYPES is incompatible. -/
def are_modalities_compatible (accepted supported : List String) : Bool :=
  accepted.any (fun m => supported.contains m)

/-- TaskManager._validate_request (task_manager.py lines 63-77). An absent push url
is modelled as the empty string (Python falsiness of the url field). -/
def validate_request (supported : List String) (p : TaskSendParams) :
    Option JSONRPCError :=
  if !are_modalities_compatible p.acceptedOutputModes supported then
    some (.invalidParams "Incompatible output modes")
  else
    match p.pushNotification with
    | some config =>
      if config.url == "" then some (.invalidParams "Push notification URL is missing")
      else none
    | none => none

/-- The dictionary shape every agent returns from invoke and yields from stream. -/
structure AgentResponse where
  is_task_complete : Bool
  require_user_input : Bool
  content : String
  deriving DecidableEq

/-- TaskManager._get_user_query (task_manager.py lines 181-186): takes the first
part of the request message (IndexError when absent) and requires it to be a text
part (ValueError otherwise). -/
def get_user_query (p : TaskSendParams) : Except Exn String :=
  match p.message.parts with
  | [] => .error .indexError
  | part :: _ =>
    match part with
    | .text s => .ok s
    | .other => .error (.valueError "Only text parts are supported")

/-- TaskManager._process_agent_response (task_manager.py lines 79-98):
require_user_input alone decides the outcome; true gives INPUT_REQUIRED carrying
the content as an agent message and no artifact, false gives COMPLETED with one
artifact built from the content. The updated task is stored, its history truncated
to the requested length for the response, and a notification fires. -/
def process_agent_response (outcome : DeliveryOutcome) (ps : PushStore)
    (request : SendTaskRequest) (agent_response : AgentResponse) (store : TaskStore) :
    Except Exn SendTaskResponse × TaskStore :=
  let p := request.params
  let parts : List Part := [Part.text agent_response.content]
  let task_status : TaskStatus :=
    if agent_response.require_user_input then
      { state := .input_required, message := some { role := "agent", parts := parts } }
    else
      { state := .completed, message := none }
  let artifacts : Option (List Artifact) :=
    if agent_response.require_user_input then none
    else some [{ parts := parts }]
  match update_store store p.id task_status artifacts with
  | .error e => (.error e, store)
  | .ok (task, store1) =>
    let task_result := append_task_history task p.historyLength
    let _notify := send_task_notification outcome ps task
    (.ok { id := request.id, result := some task_result }, store1)

/-- TaskManager.on_send_task (task_manager.py lines 100-119): a validation error is
returned as a response; otherwise the task is upserted, set to WORKING, a
notification fires, the agent is invoked synchronously, and an exception from the
agent is re-raised as a wrapped ValueError (not returned as a response). The store
component of the result carries the mutations already performed when an exception
escapes. -/
def on_send_task (supported : List String)
    (invoke : String → String → Except String AgentResponse)
    (outcome : DeliveryOutcome) (ps : PushStore)
    (request : SendTaskRequest) (store : TaskStore) :
    Except Exn SendTaskResponse × TaskStore :=
  match validate_request supported request.params with
  | some err => (.ok { id := request.id, error := some err }, store)
  | none =>
    match update_store (upsert_task store request.params) request.params.id
        { state := .working, message := none } none with
    | .error e => (.error e, upsert_task store request.params)
    | .ok (task, store2) =>
      let _notify := send_task_notification outcome ps task
      match get_user_query request.params with
      | .error e => (.error e, store2)
      | .ok query =>
        match invoke query request.params.sessionId with
        | .error e => (.error (.valueError ("Error invoking agent: " ++ e)), store2)
        | .ok agent_response =>
          process_agent_response outcome ps request agent_response store2

/-- What on_send_task_subscribe hands back: an error response or a live SSE stream. -/
inductive SubscribeResult
  | errorResponse (id : String) (error : JSONRPCError)
  | eventStream
  deriving DecidableEq

/-- TaskManager.on_send_task_subscribe (task_manager.py lines 121-136): a validation
failure returns the error response before any store mutation; on success the task
is upserted, an SSE consumer queue is registered, and the streaming driver is
spawned in the background (the driver itself is run_streaming_task below). -/
def on_send_task_subscribe (supported : List String) (request : SendTaskRequest)
    (store : TaskStore) : SubscribeResult × TaskStore :=
  match validate_request supported request.params with
  | some err => (.errorResponse request.id err, store)
  | none => (.eventStream, upsert_task store request.params)

/-- The events the streaming driver enqueues on the task's SSE queue:
TaskStatusUpdateEvent, TaskArtifactUpdateEvent, and the InternalError published by
the driver's exception handler. -/
inductive SseEvent
  | statusUpdate (id : String) (status : TaskStatus) (final : Bool)
  | artifactUpdate (id : String) (artifact : Artifact)
  | internalError (message : String)
  deriving DecidableEq

/-- One step of the agent's stream: a yielded item, or the stream raising. -/
inductive StreamStep
  | yield (item : AgentResponse)
  | raise (message : String)
  deriving DecidableEq

/-- True exactly on status-update events. -/
def isStatusUpdateEvent : SseEvent → Bool
  | .statusUpdate _ _ _ => true
  | _ => false

/-- True exactly on artifact-update events. -/
def isArtifactUpdateEvent : SseEvent → Bool
  | .artifactUpdate _ _ => true
  | _ => false

/-- True exactly on internal-error events. -/
def isInternalErrorEvent : SseEvent → Bool
  | .internalError _ => true
  | _ => false

/-- The body of the async-for loop of TaskManager._run_streaming_task
(task_manager.py lines 144-172), iterated over the agent's stream. The Python
local variable artifact is assigned only in the COMPLETED branch yet read by an
if-check on every iteration, so it is carried as an Option that starts out unbound
(none): reading it while unbound raises UnboundLocalError, and once bound it stays
bound (and truthy, so re-enqueued) on later iterations. Returns the events
enqueued in emission order (spec 4.2: the queue preserves order), the store after
the mutations performed, and the exception that ended the loop, if any. -/
def streaming_loop (outcome : DeliveryOutcome) (ps : PushStore) (taskId : String)
    (artifactVar : Option Artifact) (store : TaskStore) :
    List StreamStep → List SseEvent × TaskStore × Option Exn
  | [] => ([], store, none)
  | .raise m :: _ => ([], store, some (.agentError m))
  | .yield item :: rest =>
    let parts : List Part := [Part.text item.content]
    let isWorking : Bool := !item.is_task_complete && !item.require_user_input
    let task_state : TaskState :=
      if isWorking then .working
      else if item.require_user_input then .input_required
      else .completed
    let message : Option Message :=
      if isWorking || item.require_user_input then
        some { role := "agent", parts := parts }
      else none
    let end_stream : Bool := !isWorking
    let artifactVar1 : Option Artifact :=
      if !isWorking && !item.require_user_input then
        some { parts := parts, index := 0, append := some false }
      else artifactVar
    let task_status : TaskStatus := { state := task_state, message := message }
    match update_store store taskId task_status none with
    | .error e => ([], store, some e)
    | .ok (latest_task, store1) =>
      let _notify := send_task_notification outcome ps latest_task
      match artifactVar1 with
      | none => ([], store1, some (.unboundLocalError "artifact"))
      | some a =>
        let events := [SseEvent.artifactUpdate taskId a,
                       SseEvent.statusUpdate taskId task_status end_stream]
        let rec_result := streaming_loop outcome ps taskId artifactVar1 store1 rest
        (events ++ rec_result.1, rec_result.2.1, rec_result.2.2)

/-- The message of the InternalError the driver publishes when the loop raises. -/
def streamingErrorMessage (e : Exn) : String :=
  "An error occurred while streaming the response: " ++ exnMessage e

/-- TaskManager._run_streaming_task (task_manager.py lines 138-179): the user query
is extracted before the try block, so an exception from get_user_query escapes the
driver (an error result); every exception raised inside the loop is caught and
published as an InternalError event appended to the task's queue, and the driver
returns normally. -/
def run_streaming_task (outcome : DeliveryOutcome) (ps : PushStore)
    (request : SendTaskRequest) (store : TaskStore) (stream : List StreamStep) :
    Except Exn (List SseEvent × TaskStore) :=
  match get_user_query request.params with
  | .error e => .error e
  | .ok _query =>
    match streaming_loop outcome ps request.params.id none store stream with
    | (events, store1, none) => .ok (events, store1)
    | (events, store1, some e) =>
      .ok (events ++ [SseEvent.internalError (streamingErrorMessage e)], store1)

/-- BaseAgent.SUPPORTED_CONTENT_TYPES (generic_agent/agent.py line 23), also used
by the SQL agent. -/
def SUPPORTED_CONTENT_TYPES : List String := ["text", "text/plain"]

namespace SQLAgent

/-- Python str.strip with no arguments over the character list: surrounding
whitespace removed from both ends. -/
def python_strip (s : List Char) : List Char :=
  ((s.dropWhile Char.isWhitespace).reverse.dropWhile Char.isWhitespace).reverse

/-- Python str.lower over the character list; the queries involved are ASCII, where
Python lower and Char.toLower agree. -/
def python_lower (s : List Char) : List Char :=
  s.map Char.toLower

/-- SQLAgent._is_valid_query (sql_agent/agent.py lines 74-75): the query, stripped
of surrounding whitespace and lowercased, must start with select. Strings are
handled at the character-list level, where Python startswith is list prefix. -/
def is_valid_query (query : String) : Bool :=
  ("select".data).isPrefixOf (python_lower (python_strip query.data))

/-- What the database collaborator produces for a query: a list of rendered rows,
or an error standing for any exception raised inside the try block. -/
inductive DbResult
  | rows (rows : List String)
  | dbError (message : String)
  deriving DecidableEq

/-- SQLAgent.invoke (sql_agent/agent.py lines 35-69). The MySQL connection and
pandas read_sql are external collaborators, modelled by the oracle db; render
stands for DataFrame.head(10).to_string on the fetched rows; any exception in the
database block is a dbError result. The second component lists the queries that
reached the database. -/
def invoke (db : String → DbResult) (render : List String → String) (query : String) :
    AgentResponse × List String :=
  if !is_valid_query query then
    ({ is_task_complete := false, require_user_input := true,
       content := "Only SELECT queries are allowed. Please rephrase your query." }, [])
  else
    match db query with
    | .dbError e =>
      ({ is_task_complete := false, require_user_input := true,
         content := "Error: " ++ e }, [query])
    | .rows [] =>
      ({ is_task_complete := false, require_user_input := true,
         content := "No results found. Please try a different query." }, [query])
    | .rows rows =>
      ({ is_task_complete := true, require_user_input := false,
         content := render (rows.take 10) }, [query])

end SQLAgent

/-- Fixture: the hello message of the spec's scenarios. -/
def msgHello : Message := { role := "user", parts := [Part.text "hello"] }

/-- Fixture: params of the spec scenario task t1 with accepted output mode text. -/
def paramsT1 : TaskSendParams :=
  { id := "t1", sessionId := "s1", message := msgHello, acceptedOutputModes := ["text"] }

/-- Fixture: the send request for task t1. -/
def reqT1 : SendTaskRequest := { id := "req-1", params := paramsT1 }

/-- Fixture: the freshly submitted task t1. -/
def taskT1 : Task := newTask paramsT1

/-- Fixture: a store already holding task t1. -/
def storeT1 : TaskStore := [taskT1]

/-- Fixture: an agent whose invoke raises. -/
def invokeBoom : String → String → Except String AgentResponse :=
  fun _ _ => .error "boom"

/-- Fixture: an agent whose invoke returns content hi, complete, no input needed. -/
def invokeHi : String → String → Except String AgentResponse :=
  fun _ _ => .ok { is_task_complete := true, require_user_input := false, content := "hi" }

/-- Fixture: the two-item stream of the spec's streaming scenario, thinking then done. -/
def streamC1 : List StreamStep :=
  [StreamStep.yield { is_task_complete := false, require_user_input := false,
                      content := "thinking" },
   StreamStep.yield { is_task_complete := true, require_user_input := false,
                      content := "done" }]

/-- Fixture: a one-item stream holding only the in-progress thinking item. -/
def streamWorkingOnly : List StreamStep :=
  [StreamStep.yield { is_task_complete := false, require_user_input := false,
                      content := "thinking" }]

/-- Fixture: a stream yielding a completed item and then a working item. -/
def streamDoneThenWorking : List StreamStep :=
  [StreamStep.yield { is_task_complete := true, require_user_input := false,
                      content := "done" },
   StreamStep.yield { is_task_complete := false, require_user_input := false,
                      content := "thinking" }]

/-- Fixture: params whose accepted output mode is unsupported by the agents. -/
def paramsImg : TaskSendParams :=
  { id := "t1", sessionId := "s1", message := msgHello,
    acceptedOutputModes := ["image/png"] }

/-- Fixture: the send request with an unsupported output mode. -/
def reqImg : SendTaskRequest := { id := "req-5", params := paramsImg }

/-- Fixture: params whose message carries a non-text first part. -/
def paramsBad : TaskSendParams :=
  { id := "t1", sessionId := "s1",
    message := { role := "user", parts := [Part.other] },
    acceptedOutputModes := ["text"] }

/-- Fixture: the request with a non-text first message part. -/
def reqBad : SendTaskRequest := { id := "req-6", params := paramsBad }

/-- Fixture: a push store with a config registered for task t1. -/
def psT1 : PushStore := [("t1", { url := "http://client" })]

/-- Fixture: a database oracle that always returns one row. -/
def dbRows : String → SQLAgent.DbResult := fun _ => SQLAgent.DbResult.rows ["row1"]

/-- Fixture: a plain renderer for fetched rows. -/
def renderRows : List String → String := fun rows => String.intercalate ", " rows

/-! Helper lemmas about the store. -/

theorem findTask_cons (t : Task) (ts : TaskStore) (taskId : String) :
    findTask (t :: ts) taskId =
      if t.id == taskId then some t else findTask ts taskId := by
  by_cases hb : (t.id == taskId) = true
  · simp [findTask, List.find?_cons, hb]
  · have hb' : (t.id == taskId) = false := by simpa using hb
    simp [findTask, List.find?_cons, hb']

theorem findTask_append_of_none {store : TaskStore} {taskId : String} (l : TaskStore)
    (h : findTask store taskId = none) :
    findTask (store ++ l) taskId = findTask l taskId := by
  induction store with
  | nil => rfl
  | cons t ts ih =>
    rw [findTask_cons] at h
    rw [List.cons_append, findTask_cons]
    by_cases hb : (t.id == taskId) = true
    · rw [if_pos hb] at h
      exact absurd h (by simp)
    · rw [if_neg hb] at h ⊢
      exact ih h

theorem findTask_singleton_self (p : TaskSendParams) :
    findTask [newTask p] p.id = some (newTask p) := by
  rw [findTask_cons]
  simp [newTask]

theorem findTask_upsert_exists (store : TaskStore) (p : TaskSendParams) :
    ∃ t, findTask (upsert_task store p) p.id = some t := by
  unfold upsert_task
  cases hf : findTask store p.id with
  | some t => exact ⟨t, by simp [hf]⟩
  | none =>
    refine ⟨newTask p, ?_⟩
    simp only [hf, Option.isSome_none, Bool.false_eq_true, if_false]
    rw [findTask_append_of_none _ hf]
    exact findTask_singleton_self p

theorem upsert_task_of_fresh {store : TaskStore} {p : TaskSendParams}
    (h : findTask store p.id = none) :
    upsert_task store p = store ++ [newTask p] := by
  unfold upsert_task
  simp [h]

theorem findTask_upsert_of_fresh {store : TaskStore} {p : TaskSendParams}
    (h : findTask store p.id = none) :
    findTask (upsert_task store p) p.id = some (newTask p) := by
  rw [upsert_task_of_fresh h, findTask_append_of_none _ h]
  exact findTask_singleton_self p

theorem update_store_of_found {store : TaskStore} {taskId : String} {t : Task}
    (status : TaskStatus) (artifacts : Option (List Artifact))
    (h : findTask store taskId = some t) :
    update_store store taskId status artifacts =
      .ok (applyUpdate t status artifacts,
           replaceTask store taskId (applyUpdate t status artifacts)) := by
  unfold update_store
  rw [h]

theorem findTask_id_eq {store : TaskStore} {taskId : String} {t : Task}
    (h : findTask store taskId = some t) : t.id = taskId := by
  unfold findTask at h
  have := List.find?_some h
  simpa [beq_iff_eq] using this

theorem findTask_replaceTask {store : TaskStore} {taskId : String} {t : Task}
    (t' : Task) (h : findTask store taskId = some t) (hid : t'.id = taskId) :
    findTask (replaceTask store taskId t') taskId = some t' := by
  induction store with
  | nil => simp [findTask] at h
  | cons u us ih =>
    rw [findTask_cons] at h
    unfold replaceTask
    by_cases hu : (u.id == taskId) = true
    · rw [if_pos hu, findTask_cons, if_pos (by simp [hid])]
    · rw [if_neg hu] at h
      rw [if_neg hu, findTask_cons, if_neg hu]
      exact ih h

theorem applyUpdate_id (t : Task) (status : TaskStatus)
    (artifacts : Option (List Artifact)) : (applyUpdate t status artifacts).id = t.id :=
  rfl

theorem append_task_history_status (t : Task) (len : Option Nat) :
    (append_task_history t len).status = t.status := by
  cases len with
  | none => rfl
  | some n => cases n <;> rfl

theorem append_task_history_artifacts (t : Task) (len : Option Nat) :
    (append_task_history t len).artifacts = t.artifacts := by
  cases len with
  | none => rfl
  | some n => cases n <;> rfl

theorem amc_eq_false {accepted supported : List String}
    (h : ∀ m ∈ accepted, m ∉ supported) :
    are_modalities_compatible accepted supported = false := by
  unfold are_modalities_compatible
  rw [List.any_eq_false]
  intro m hm
  simpa using h m hm

theorem validate_request_incompatible {supported : List String} {p : TaskSendParams}
    (h : are_modalities_compatible p.acceptedOutputModes supported = false) :
    validate_request supported p = some (.invalidParams "Incompatible output modes") := by
  unfold validate_request
  rw [h]
  rfl

theorem validate_request_ok {supported : List String} {p : TaskSendParams}
    (hc : are_modalities_compatible p.acceptedOutputModes supported = true)
    (hp : p.pushNotification = none) :
    validate_request supported p = none := by
  unfold validate_request
  rw [hc, hp]
  rfl

/-! Claim theorems. -/

/-- Claim C5: a send or subscribe request whose acceptedOutputModes share no element
with the agent's supported content types gets an InvalidParamsError response, and the
task store is returned unchanged — the rejection happens before any task creation or
status update, for any store, in particular one where the task id already exists. -/
theorem c5_incompatible_modes_rejected_without_mutation
    (supported : List String) (invoke : String → String → Except String AgentResponse)
    (outcome : DeliveryOutcome) (ps : PushStore) (request : SendTaskRequest)
    (store : TaskStore)
    (h : ∀ m ∈ request.params.acceptedOutputModes, m ∉ supported) :
    on_send_task supported invoke outcome ps request store
        = (.ok { id := request.id, result := none,
                 error := some (.invalidParams "Incompatible output modes") }, store)
      ∧ on_send_task_subscribe supported request store
        = (.errorResponse request.id (.invalidParams "Incompatible output modes"),
           store) := by
  have hv := validate_request_incompatible (amc_eq_false h)
  constructor
  · simp [on_send_task, hv]
  · simp [on_send_task_subscribe, hv]

/-- Claim C5 witness: at the concrete request asking for image output against the
text-only agent, with a store where the task id t1 already exists, both handlers
reject with InvalidParamsError and leave the store untouched. -/
theorem c5_witness :
    on_send_task SUPPORTED_CONTENT_TYPES invokeHi .success [] reqImg storeT1
        = (.ok { id := "req-5", result := none,
                 error := some (.invalidParams "Incompatible output modes") }, storeT1)
      ∧ on_send_task_subscribe SUPPORTED_CONTENT_TYPES reqImg storeT1
        = (.errorResponse "req-5" (.invalidParams "Incompatible output modes"),
           storeT1) :=
  c5_incompatible_modes_rejected_without_mutation SUPPORTED_CONTENT_TYPES invokeHi
    .success [] reqImg storeT1 (by decide)

/-- Claim C7: a push config whose url fails verification makes
set_push_notification_info return false and leave the push store unchanged, and with
no persisted config for a task, send_task_notification is a no-op that sends nothing. -/
theorem c7_push_verification_gates_persistence
    (verify : String → Bool) (ps : PushStore) (taskId : String)
    (config : PushNotificationConfig) (outcome : DeliveryOutcome) (t : Task) :
    (verify config.url = false →
      set_push_notification_info verify ps taskId config = (false, ps))
    ∧ (get_push_notification_info ps t.id = none →
      send_task_notification outcome ps t = ([], [])) := by
  constructor
  · intro h
    simp [set_push_notification_info, h]
  · intro h
    simp [send_task_notification, has_push_notification_info, h]

/-- Claim C7 witness: a rejecting verifier at a concrete config, and a task with no
registered config, at concrete inputs. -/
theorem c7_witness :
    set_push_notification_info (fun _ => false) [] "t1" { url := "http://bad" }
        = (false, [])
    ∧ send_task_notification .success [] taskT1 = ([], []) :=
  ⟨(c7_push_verification_gates_persistence (fun _ => false) [] "t1"
      { url := "http://bad" } .success taskT1).1 rfl,
   (c7_push_verification_gates_persistence (fun _ => false) [] "t1"
      { url := "http://bad" } .success taskT1).2 rfl⟩

/-- Claim C8: with a push config registered for the task, a delivery failure inside
send_task_notification only produces a log line — the call still returns normally
with the attempted delivery — and the owning synchronous send operation returns the
identical response and store whatever the delivery outcome: the failure is never
raised to the client and never fails the task operation. -/
theorem c8_delivery_failure_logged_only
    (ps : PushStore) (t : Task) (config : PushNotificationConfig) (m : String)
    (supported : List String) (invoke : String → String → Except String AgentResponse)
    (request : SendTaskRequest) (store : TaskStore) (o1 o2 : DeliveryOutcome)
    (hcfg : get_push_notification_info ps t.id = some config) :
    send_task_notification (.failure m) ps t
        = ([{ url := config.url, taskId := t.id, state := t.status.state }],
           ["Error sending push notification: " ++ m])
    ∧ on_send_task supported invoke o1 ps request store
        = on_send_task supported invoke o2 ps request store := by
  constructor
  · simp [send_task_notification, has_push_notification_info, hcfg,
          send_push_notification]
  · rfl

/-- Claim C8 witness: a failing delivery for the registered config of task t1 is
returned as a log line, and the send operation's result is identical under failing
and successful delivery, at concrete inputs. -/
theorem c8_witness :
    send_task_notification (.failure "timeout") psT1 taskT1
        = ([{ url := "http://client", taskId := "t1", state := .submitted }],
           ["Error sending push notification: " ++ "timeout"])
    ∧ on_send_task SUPPORTED_CONTENT_TYPES invokeHi (.failure "timeout") psT1 reqT1 []
        = on_send_task SUPPORTED_CONTENT_TYPES invokeHi .success psT1 reqT1 [] :=
  c8_delivery_failure_logged_only psT1 taskT1 { url := "http://client" } "timeout"
    SUPPORTED_CONTENT_TYPES invokeHi reqT1 [] (.failure "timeout") .success (by rfl)

/-- Claim C10: a query that, stripped of surrounding whitespace and lowercased, does
not start with select is answered with the rephrase-request response, complete false
and user input required, and reaches the database zero times; and any invocation
whose query did reach the database had a select-prefixed query. -/
theorem c10_non_select_never_reaches_database
    (db : String → SQLAgent.DbResult) (render : List String → String) (query : String)
    (h : ("select".data).isPrefixOf
        (SQLAgent.python_lower (SQLAgent.python_strip query.data)) = false) :
    SQLAgent.invoke db render query
        = ({ is_task_complete := false, require_user_input := true,
             content := "Only SELECT queries are allowed. Please rephrase your query." },
           [])
    ∧ ∀ (db2 : String → SQLAgent.DbResult) (r2 : List String → String) (q2 : String),
        (SQLAgent.invoke db2 r2 q2).2 ≠ [] → SQLAgent.is_valid_query q2 = true := by
  constructor
  · have hv : SQLAgent.is_valid_query query = false := h
    simp [SQLAgent.invoke, hv]
  · intro db2 r2 q2 hne
    cases hv : SQLAgent.is_valid_query q2 with
    | true => rfl
    | false => simp [SQLAgent.invoke, hv] at hne

/-- Claim C10 witness: the concrete non-select query is rejected without any database
access, at a concrete database oracle and renderer. -/
theorem c10_witness :
    SQLAgent.invoke dbRows renderRows "DROP TABLE users"
        = ({ is_task_complete := false, require_user_input := true,
             content := "Only SELECT queries are allowed. Please rephrase your query." },
           [])
    ∧ ∀ (db2 : String → SQLAgent.DbResult) (r2 : List String → String) (q2 : String),
        (SQLAgent.invoke db2 r2 q2).2 ≠ [] → SQLAgent.is_valid_query q2 = true :=
  c10_non_select_never_reaches_database dbRows renderRows "DROP TABLE users" (by decide)

/-- Claim C2, counterexample: for the concrete valid request whose agent raises,
on_send_task does not return an InternalError response — it does not return a
response at all; the failure is re-raised to the caller as a wrapped ValueError. -/
theorem c2_counterexample_raises_not_returns :
    (on_send_task SUPPORTED_CONTENT_TYPES invokeBoom .success [] reqT1 []).1
      = Except.error (Exn.valueError "Error invoking agent: boom") := by rfl

/-- Claim C2 amended: when validation passes and the agent's invoke raises,
on_send_task surfaces the failure to the immediate caller by raising a ValueError
wrapping the original error message (never silently swallowed, though not as an
InternalError response), and the task's stored status remains WORKING, not a
terminal state. -/
theorem c2_agent_fault_raises_and_leaves_working
    (supported : List String) (invoke : String → String → Except String AgentResponse)
    (outcome : DeliveryOutcome) (ps : PushStore) (request : SendTaskRequest)
    (store : TaskStore) (q e : String)
    (hval : validate_request supported request.params = none)
    (hq : get_user_query request.params = .ok q)
    (hinv : invoke q request.params.sessionId = .error e) :
    (on_send_task supported invoke outcome ps request store).1
        = .error (.valueError ("Error invoking agent: " ++ e))
      ∧ (findTask (on_send_task supported invoke outcome ps request store).2
            request.params.id).map (fun t => t.status.state)
        = some .working := by
  obtain ⟨t0, ht0⟩ := findTask_upsert_exists store request.params
  have hupd := update_store_of_found { state := .working, message := none } none ht0
  have hid0 : t0.id = request.params.id := findTask_id_eq ht0
  have hid : (applyUpdate t0 { state := .working, message := none } none).id
      = request.params.id := hid0
  have hfind := findTask_replaceTask
    (applyUpdate t0 { state := .working, message := none } none) ht0 hid
  constructor
  · simp [on_send_task, hval, hupd, hq, hinv]
  · simp only [on_send_task, hval, hupd, hq, hinv]
    rw [hfind]
    rfl

/-- Claim C2 witness: the amended claim at the concrete raising agent, a fresh
store, and the valid hello request for task t1. -/
theorem c2_witness :
    (on_send_task SUPPORTED_CONTENT_TYPES invokeBoom .success [] reqT1 []).1
        = .error (.valueError ("Error invoking agent: " ++ "boom"))
      ∧ (findTask (on_send_task SUPPORTED_CONTENT_TYPES invokeBoom .success [] reqT1 []).2
            "t1").map (fun t => t.status.state)
        = some .working :=
  c2_agent_fault_raises_and_leaves_working SUPPORTED_CONTENT_TYPES invokeBoom
    .success [] reqT1 [] "hello" "boom" (by rfl) (by rfl) (by rfl)

/-- Claim C4: a synchronous send whose output modes are compatible, with no push
config, a fresh task id and a text message, against an agent returning content hi,
complete, no input required, yields a response task whose final status is COMPLETED
and whose artifacts are exactly one artifact with a single text part hi. -/
theorem c4_sync_completed_with_single_artifact
    (supported : List String) (invoke : String → String → Except String AgentResponse)
    (outcome : DeliveryOutcome) (ps : PushStore) (request : SendTaskRequest)
    (store : TaskStore) (q : String)
    (hc : are_modalities_compatible request.params.acceptedOutputModes supported = true)
    (hp : request.params.pushNotification = none)
    (hfresh : findTask store request.params.id = none)
    (hq : get_user_query request.params = .ok q)
    (hinv : invoke q request.params.sessionId
        = .ok { is_task_complete := true, require_user_input := false, content := "hi" }) :
    ((on_send_task supported invoke outcome ps request store).1).map
        (fun r => (r.error, r.result.map (fun tk => (tk.status.state, tk.artifacts))))
      = .ok (none, some (.completed,
          [{ parts := [Part.text "hi"], index := 0, append := none }])) := by
  have hval := validate_request_ok hc hp
  have ht0 := findTask_upsert_of_fresh hfresh
  have hupd1 := update_store_of_found { state := .working, message := none } none ht0
  have hfind1 := findTask_replaceTask
    (applyUpdate (newTask request.params) { state := .working, message := none } none)
    ht0 rfl
  have hupd2 := update_store_of_found { state := .completed, message := none }
    (some [{ parts := [Part.text "hi"], index := 0, append := none }]) hfind1
  simp only [on_send_task, hval, hupd1, hq, hinv, process_agent_response]
  simp only [Bool.false_eq_true, if_false, hupd2]
  simp [Except.map, append_task_history_status, append_task_history_artifacts,
        applyUpdate, newTask]

/-- Claim C4 witness: the scenario at concrete inputs — request t1 with accepted
mode text against the text agent returning hi, on the empty store. -/
theorem c4_witness :
    ((on_send_task SUPPORTED_CONTENT_TYPES invokeHi .success [] reqT1 []).1).map
        (fun r => (r.error, r.result.map (fun tk => (tk.status.state, tk.artifacts))))
      = .ok (none, some (.completed,
          [{ parts := [Part.text "hi"], index := 0, append := none }])) :=
  c4_sync_completed_with_single_artifact SUPPORTED_CONTENT_TYPES invokeHi .success
    [] reqT1 [] "hello" (by rfl) (by rfl) (by rfl) (by rfl) (by rfl)

/-- Claim C9: _process_agent_response decides the outcome from require_user_input
alone, ignoring is_task_complete: true persists INPUT_REQUIRED carrying the content
as an agent message and appends no artifact; false — in particular together with
is_task_complete false — persists COMPLETED and appends exactly one artifact built
from the content. -/
theorem c9_process_agent_response_ignores_is_task_complete
    (outcome : DeliveryOutcome) (ps : PushStore) (request : SendTaskRequest)
    (resp : AgentResponse) (store : TaskStore) (t : Task)
    (hfound : findTask store request.params.id = some t) :
    (resp.require_user_input = true →
      ((process_agent_response outcome ps request resp store).1).map
          (fun r => r.result.map (fun tk => (tk.status, tk.artifacts)))
        = .ok (some ({ state := .input_required,
                       message := some { role := "agent",
                                         parts := [Part.text resp.content] } },
                     t.artifacts)))
    ∧ (resp.require_user_input = false →
      ((process_agent_response outcome ps request resp store).1).map
          (fun r => r.result.map (fun tk => (tk.status, tk.artifacts)))
        = .ok (some ({ state := .completed, message := none },
                     t.artifacts
                       ++ [{ parts := [Part.text resp.content], index := 0,
                             append := none }]))) := by
  constructor
  · intro hr
    have hupd := update_store_of_found
      { state := .input_required,
        message := some { role := "agent", parts := [Part.text resp.content] } }
      none hfound
    simp [process_agent_response, hr, hupd, Except.map,
          append_task_history_status, append_task_history_artifacts, applyUpdate]
  · intro hr
    have hupd := update_store_of_found { state := .completed, message := none }
      (some [{ parts := [Part.text resp.content], index := 0, append := none }]) hfound
    simp [process_agent_response, hr, hupd, Except.map,
          append_task_history_status, append_task_history_artifacts, applyUpdate]

/-- Claim C9 witness: a response with is_task_complete false and require_user_input
false is nevertheless persisted as COMPLETED with one artifact, at concrete inputs. -/
theorem c9_witness :
    ((process_agent_response .success [] reqT1
        { is_task_complete := false, require_user_input := false, content := "x" }
        storeT1).1).map
        (fun r => r.result.map (fun tk => (tk.status, tk.artifacts)))
      = .ok (some ({ state := .completed, message := none },
                   [{ parts := [Part.text "x"], index := 0, append := none }])) :=
  (c9_process_agent_response_ignores_is_task_complete .success [] reqT1
      { is_task_complete := false, require_user_input := false, content := "x" }
      storeT1 taskT1 (by rfl)).2 (by rfl)

/-- Claim C1 (code bug): on the stream thinking(WORKING) then done(COMPLETED), the
driver does not enqueue WORKING then COMPLETED status updates plus one artifact
update. The Python local artifact is unbound when the first WORKING item reaches
the if-artifact check, so the loop raises UnboundLocalError on the first item and
the driver publishes a single InternalError event: zero status updates, zero
artifact updates, one error event. -/
theorem c1_stream_scenario_hits_unbound_artifact :
    (run_streaming_task .success [] reqT1 storeT1 streamC1).map
        (fun r => (r.1.countP isStatusUpdateEvent,
                   r.1.countP isArtifactUpdateEvent,
                   r.1.countP isInternalErrorEvent,
                   r.1))
      = .ok (0, 0, 1,
             [SseEvent.internalError
               "An error occurred while streaming the response: local variable artifact referenced before assignment"]) := by
  rfl

/-- Claim C3 (code bug): the flags do not map to exactly one outcome per item. A
lone working item (both flags false) never gets its non-final WORKING status update
enqueued — the unbound artifact read raises first and only an InternalError event
is published; and after a completed item, a subsequent working item re-enqueues the
stale bound artifact, so an artifact event is also produced alongside a WORKING
status update. -/
theorem c3_flag_mapping_broken_by_artifact_variable :
    (run_streaming_task .success [] reqT1 storeT1 streamWorkingOnly).map
        (fun r => r.1)
      = .ok [SseEvent.internalError
              "An error occurred while streaming the response: local variable artifact referenced before assignment"]
    ∧ (run_streaming_task .success [] reqT1 storeT1 streamDoneThenWorking).map
        (fun r => r.1)
      = .ok [SseEvent.artifactUpdate "t1"
               { parts := [Part.text "done"], index := 0, append := some false },
             SseEvent.statusUpdate "t1" { state := .completed, message := none } true,
             SseEvent.artifactUpdate "t1"
               { parts := [Part.text "done"], index := 0, append := some false },
             SseEvent.statusUpdate "t1"
               { state := .working,
                 message := some { role := "agent", parts := [Part.text "thinking"] } }
               false] := by
  constructor <;> rfl

/-- Claim C6, counterexample: a request whose first message part is not text raises
inside the background driver before the try block; the exception escapes the driver
instead of being published as an error event. -/
theorem c6_counterexample_query_exception_escapes :
    run_streaming_task .success [] reqBad storeT1 []
      = .error (.valueError "Only text parts are supported") := by rfl

/-- Claim C6 amended: every exception raised inside the driver's streaming loop
(including one raised by the agent's stream) is caught and published as an
InternalError event appended to the events already enqueued, and the driver returns
normally rather than propagating it; only an exception raised while extracting the
user query from the request message, before the loop, escapes the driver. -/
theorem c6_loop_exceptions_are_published
    (outcome : DeliveryOutcome) (ps : PushStore) (request : SendTaskRequest)
    (store : TaskStore) (stream : List StreamStep) (q : String)
    (hq : get_user_query request.params = .ok q) :
    isOkE (run_streaming_task outcome ps request store stream) = true
    ∧ (∀ events store1 e,
        streaming_loop outcome ps request.params.id none store stream
            = (events, store1, some e) →
        run_streaming_task outcome ps request store stream
            = .ok (events ++ [SseEvent.internalError (streamingErrorMessage e)],
                   store1)) := by
  constructor
  · unfold run_streaming_task
    rw [hq]
    rcases hls : streaming_loop outcome ps request.params.id none store stream
      with ⟨events, store1, oe⟩
    cases oe <;> rfl
  · intro events store1 e hloop
    unfold run_streaming_task
    rw [hq, hloop]

/-- Claim C6 witness: the amended claim at a concrete stream whose first item makes
the loop raise; the driver returns normally. -/
theorem c6_witness :
    isOkE (run_streaming_task .success [] reqT1 storeT1 streamWorkingOnly) = true :=
  (c6_loop_exceptions_are_published .success [] reqT1 storeT1 streamWorkingOnly
    "hello" (by rfl)).1

end A2A
